import Mathlib

/-!
# Verification of the analytics layer of `macro-inflation-tracker`

A shallow embedding, in Lean 4, of the pure analytic transforms of
`src/analytics.py`: geo-projection (`prepare_map_data` / `get_color`),
the compounding engine (`calculate_adjusted_value`), pattern analysis
(`cluster_countries`, `find_similar_countries`, and their shared
pivot/fill matrix construction), and the insight generator
(`generate_insights`).

Conventions of the embedding:

* Python floats are embedded as `ℚ` (exact arithmetic; the source performs
  only field operations on values that the spec treats as real numbers).
* Pandas dataframes of inflation records are embedded as `List InflationRecord`.
* The static lookup tables `COUNTRY_COORDS` and `COUNTRY_REGIONS` live in
  `config.py`, which is not part of the analytic sources; every function that
  reads them takes the mapping as an explicit parameter, and a small
  spec-modelled instance is provided for concrete evaluations.
* `pandas.sort_values` is embedded as a stable insertion sort on the sort key;
  `sort_values(ascending=False)` is embedded, following the pandas
  implementation (`nargsort`), as the reverse of the stable ascending sort.
* `DataFrame.fillna(method='ffill')` / `'bfill'` act along axis 0, i.e. down
  each column across rows; the embedding reproduces exactly that.
-/

namespace InflationTracker

/-- One observation of the long-format inflation table (§3 of the spec).
The `country_code` field is never read by the analytics layer and is omitted. -/
structure InflationRecord where
  country : String
  year : ℤ
  inflation : ℚ
  deriving DecidableEq, Repr

/-- Modelled from the spec: `config.py` (absent from the analytic sources)
exposes the static `COUNTRY_COORDS` mapping `country name → {lat, lon}`.
It is embedded as an association list, passed explicitly to each function
that reads the global. -/
abbrev Coords := List (String × ℚ × ℚ)

/-- Modelled from the spec: `config.py`'s static `COUNTRY_REGIONS` mapping
`country name → region name`. -/
abbrev Regions := List (String × String)

/-- Modelled from the spec: a representative concrete instance of the static
`COUNTRY_COORDS` table (the real `config.py` holds one entry per mappable
country; only membership and the joined coordinates matter to the claims). -/
def COUNTRY_COORDS : Coords :=
  [("France", (461333/10000, 22137/10000)),
   ("Germany", (511657/10000, 104515/10000)),
   ("Japan", (362048/10000, 1382529/10000)),
   ("United States", (370902/10000, -957129/10000))]

/-- Modelled from the spec: a representative concrete instance of the static
`COUNTRY_REGIONS` table. -/
def COUNTRY_REGIONS : Regions :=
  [("France", "Europe"), ("Germany", "Europe"),
   ("Japan", "Asia"), ("United States", "North America")]

/-! ## Geo-Projection: `prepare_map_data` (src/analytics.py lines 10-50) -/

/-- `get_color` from `prepare_map_data`: the five-band RGBA color scheme.
Bands are inclusive-lower / exclusive-upper, decided by a cascade of
strict upper-bound tests exactly as in the source. -/
def get_color (inflation : ℚ) : List ℕ :=
  if inflation < 0 then [0, 100, 255, 200]
  else if inflation < 2 then [0, 200, 100, 200]
  else if inflation < 5 then [255, 200, 0, 200]
  else if inflation < 10 then [255, 100, 0, 200]
  else [255, 0, 0, 200]

/-- The elevation formula of `prepare_map_data`:
`year_data['inflation'].abs() * 10000`. -/
def elevationOf (inflation : ℚ) : ℚ := |inflation| * 10000

/-- A derived map row (§3 `MapRow`). -/
structure MapRow where
  country : String
  inflation : ℚ
  lat : ℚ
  lon : ℚ
  color : List ℕ
  elevation : ℚ
  deriving DecidableEq, Repr

/-- `prepare_map_data(df, year)`: filter to the selected year, join coordinates
from `COUNTRY_COORDS`, drop rows whose country has no coordinates, attach the
color bucket and the elevation. -/
def prepare_map_data (coords : Coords) (df : List InflationRecord) (year : ℤ) :
    List MapRow :=
  (df.filter (fun r => r.year = year)).filterMap (fun r =>
    match coords.lookup r.country with
    | some (la, lo) =>
        some { country := r.country, inflation := r.inflation, lat := la,
               lon := lo, color := get_color r.inflation,
               elevation := elevationOf r.inflation }
    | none => none)

/-! ## The five color bands as stated in the spec (§4.1) -/

/-- The five color bands of §4.1, as predicates on the inflation value:
band 0 = deflation, 1 = low, 2 = moderate, 3 = high, 4 = very high. -/
def bandPred : Fin 5 → ℚ → Prop
  | 0 => fun x => x < 0
  | 1 => fun x => 0 ≤ x ∧ x < 2
  | 2 => fun x => 2 ≤ x ∧ x < 5
  | 3 => fun x => 5 ≤ x ∧ x < 10
  | 4 => fun x => 10 ≤ x

/-- The color the source assigns to each band. -/
def bandColor : Fin 5 → List ℕ
  | 0 => [0, 100, 255, 200]
  | 1 => [0, 200, 100, 200]
  | 2 => [255, 200, 0, 200]
  | 3 => [255, 100, 0, 200]
  | 4 => [255, 0, 0, 200]

/-- The data-model invariant of §3: the table holds at most one record per
`(country, year)` key pair. -/
def KeyUnique (df : List InflationRecord) : Prop :=
  df.Pairwise (fun a b => a.country = b.country → a.year ≠ b.year)

/-- C4: the color encoding is total and deterministic: every inflation value
lies in exactly one of the five bands (inclusive-lower / exclusive-upper
boundaries), `get_color` is constant on each band with the band's color, and
the elevation of every map row equals `|x| * 10000`, hence is non-negative and
monotone in `|x|`. -/
theorem get_color_total_partition_and_elevation :
    (∀ x : ℚ, ∃! i : Fin 5, bandPred i x) ∧
    (∀ (x : ℚ) (i : Fin 5), bandPred i x → get_color x = bandColor i) ∧
    (∀ x : ℚ, 0 ≤ elevationOf x) ∧
    (∀ x y : ℚ, |x| ≤ |y| → elevationOf x ≤ elevationOf y) ∧
    (∀ (coords : Coords) (df : List InflationRecord) (yr : ℤ),
      ∀ row ∈ prepare_map_data coords df yr,
        row.color = get_color row.inflation ∧
        row.elevation = |row.inflation| * 10000) := by
  refine ⟨?_, ?_, ?_, ?_, ?_⟩
  · intro x
    rcases lt_or_le x 0 with h | h0
    · refine ⟨0, h, ?_⟩
      intro j hj
      fin_cases j <;> simp_all [bandPred] <;> linarith
    rcases lt_or_le x 2 with h | h2
    · refine ⟨1, ⟨h0, h⟩, ?_⟩
      intro j hj
      fin_cases j <;> simp_all [bandPred] <;> linarith
    rcases lt_or_le x 5 with h | h5
    · refine ⟨2, ⟨h2, h⟩, ?_⟩
      intro j hj
      fin_cases j <;> simp_all [bandPred] <;> linarith
    rcases lt_or_le x 10 with h | h10
    · refine ⟨3, ⟨h5, h⟩, ?_⟩
      intro j hj
      fin_cases j <;> simp_all [bandPred] <;> linarith
    · refine ⟨4, h10, ?_⟩
      intro j hj
      fin_cases j <;> simp_all [bandPred] <;> linarith
  · intro x i hi
    fin_cases i
    · simp only [bandPred] at hi
      simp only [get_color, bandColor]
      rw [if_pos hi]
    · obtain ⟨h1, h2⟩ := hi
      simp only [get_color, bandColor]
      rw [if_neg (by linarith), if_pos h2]
    · obtain ⟨h1, h2⟩ := hi
      simp only [get_color, bandColor]
      rw [if_neg (by linarith), if_neg (by linarith), if_pos h2]
    · obtain ⟨h1, h2⟩ := hi
      simp only [get_color, bandColor]
      rw [if_neg (by linarith), if_neg (by linarith), if_neg (by linarith),
          if_pos h2]
    · simp only [bandPred] at hi
      simp only [get_color, bandColor]
      rw [if_neg (by linarith), if_neg (by linarith), if_neg (by linarith),
          if_neg (by linarith)]
  · intro x
    unfold elevationOf
    positivity
  · intro x y h
    unfold elevationOf
    have : (0:ℚ) ≤ 10000 := by norm_num
    exact mul_le_mul_of_nonneg_right h this
  · intro coords df yr row hrow
    simp only [prepare_map_data, List.mem_filterMap] at hrow
    obtain ⟨r, _, hmap⟩ := hrow
    cases h : coords.lookup r.country with
    | none => rw [h] at hmap; cases hmap
    | some p =>
        obtain ⟨la, lo⟩ := p
        rw [h] at hmap
        cases hmap
        exact ⟨rfl, rfl⟩

/-- Witness for `get_color_total_partition_and_elevation` at concrete inputs. -/
theorem get_color_total_partition_and_elevation_witness :
    get_color 3 = bandColor 2 ∧ elevationOf (-1) ≤ elevationOf 2 := by
  obtain ⟨-, h2, -, h4, -⟩ := get_color_total_partition_and_elevation
  exact ⟨h2 3 2 (by norm_num [bandPred]), h4 (-1) 2 (by norm_num)⟩

/-- C5: for every year and every table satisfying the data-model key
invariant, `prepare_map_data` returns no two rows with the same country, and
every returned row's country is a key of the coordinate table (rows without
coordinates are dropped, not an error). -/
theorem prepare_map_data_nodup_countries_and_known :
    ∀ (coords : Coords) (df : List InflationRecord) (yr : ℤ),
      KeyUnique df →
      (prepare_map_data coords df yr).Pairwise
          (fun a b => a.country ≠ b.country) ∧
      ∀ row ∈ prepare_map_data coords df yr,
        (coords.lookup row.country).isSome := by
  intro coords df yr hkey
  constructor
  · unfold prepare_map_data
    rw [List.pairwise_filterMap]
    have hfilter : (df.filter (fun r => r.year = yr)).Pairwise
        (fun a b => a.country = b.country → a.year ≠ b.year) :=
      hkey.sublist (List.filter_sublist _)
    refine hfilter.imp_of_mem ?_
    intro a b ha hb hab m1 hm1 m2 hm2
    have hay : a.year = yr := by
      have := List.of_mem_filter ha
      simpa using this
    have hby : b.year = yr := by
      have := List.of_mem_filter hb
      simpa using this
    have hm1c : m1.country = a.country := by
      cases h : coords.lookup a.country with
      | none => rw [h] at hm1; cases hm1
      | some p =>
          obtain ⟨la, lo⟩ := p
          rw [h] at hm1
          cases hm1
          rfl
    have hm2c : m2.country = b.country := by
      cases h : coords.lookup b.country with
      | none => rw [h] at hm2; cases hm2
      | some p =>
          obtain ⟨la, lo⟩ := p
          rw [h] at hm2
          cases hm2
          rfl
    rw [hm1c, hm2c]
    intro hc
    exact hab hc (hay.trans hby.symm)
  · intro row hrow
    simp only [prepare_map_data, List.mem_filterMap] at hrow
    obtain ⟨r, _, hmap⟩ := hrow
    cases h : coords.lookup r.country with
    | none => rw [h] at hmap; cases hmap
    | some p =>
        obtain ⟨la, lo⟩ := p
        rw [h] at hmap
        cases hmap
        simp [h]

/-- Witness for `prepare_map_data_nodup_countries_and_known`: a concrete
two-record table for the year 2020. -/
theorem prepare_map_data_nodup_countries_and_known_witness :
    (prepare_map_data COUNTRY_COORDS
        [⟨"Germany", 2020, 5⟩, ⟨"Atlantis", 2020, 3⟩] 2020).Pairwise
        (fun a b => a.country ≠ b.country) ∧
      ∀ row ∈ prepare_map_data COUNTRY_COORDS
          [⟨"Germany", 2020, 5⟩, ⟨"Atlantis", 2020, 3⟩] 2020,
        (COUNTRY_COORDS.lookup row.country).isSome :=
  prepare_map_data_nodup_countries_and_known COUNTRY_COORDS
    [⟨"Germany", 2020, 5⟩, ⟨"Atlantis", 2020, 3⟩] 2020
    (by unfold KeyUnique; decide)

/-! ## Compounding Engine: `calculate_adjusted_value`
(src/analytics.py lines 139-186) -/

/-- The sort key of `sort_values('year')`. -/
def byYearLE (a b : InflationRecord) : Prop := a.year ≤ b.year

instance : DecidableRel byYearLE :=
  fun a b => inferInstanceAs (Decidable (a.year ≤ b.year))

instance : IsTotal InflationRecord byYearLE :=
  ⟨fun a b => Int.le_total a.year b.year⟩

instance : IsTrans InflationRecord byYearLE :=
  ⟨fun _ _ _ hab hbc => le_trans hab hbc⟩

/-- The row selection of `calculate_adjusted_value`: the country's rows with
`start_year <= year <= end_year`, sorted ascending by year
(`sort_values('year')`, embedded as a stable sort). -/
def selectCountryRows (c : String) (s e : ℤ) (df : List InflationRecord) :
    List InflationRecord :=
  (df.filter (fun r => r.country = c ∧ s ≤ r.year ∧ r.year ≤ e)).insertionSort
    byYearLE

/-- One row of the returned AdjustedValueSeries dataframe. -/
structure SeriesPoint where
  year : ℤ
  price_index : ℚ
  adjusted_value : ℚ
  deriving DecidableEq, Repr

/-- The loop body of `calculate_adjusted_value`: starting from the running
index `idx`, compound each remaining row in order
(`new_index = price_index[-1] * (1 + inflation/100)`,
`adjusted_value = initial_amount * (new_index / 100)`). -/
def compoundSteps (amt idx : ℚ) : List InflationRecord → List SeriesPoint
  | [] => []
  | r :: rest =>
      let ni := idx * (1 + r.inflation / 100)
      ⟨r.year, ni, amt * (ni / 100)⟩ :: compoundSteps amt ni rest

/-- `calculate_adjusted_value(country, start_year, end_year, initial_amount,
inflation_data)`: returns `none` (the `(None, None)` NotFound signal) when the
selection is empty, otherwise the series seeded with
`(start_year, 100, initial_amount)` followed by one compounding step per
selected row whose year differs from `start_year` (rows at `start_year` are
skipped by the loop's `continue`), paired with the final adjusted value. -/
def calculate_adjusted_value (c : String) (s e : ℤ) (amt : ℚ)
    (df : List InflationRecord) : Option (List SeriesPoint × ℚ) :=
  let cd := selectCountryRows c s e df
  if cd.isEmpty then none
  else
    let series : List SeriesPoint :=
      ⟨s, 100, amt⟩ :: compoundSteps amt 100 (cd.filter (fun r => r.year ≠ s))
    some (series, (series.getLastD ⟨s, 100, amt⟩).adjusted_value)

/-- The years produced by the compounding loop are the years of the rows it
consumes, in order. -/
theorem compoundSteps_map_year (amt : ℚ) :
    ∀ (rows : List InflationRecord) (idx : ℚ),
      (compoundSteps amt idx rows).map (fun p => p.year) =
        rows.map (fun r => r.year) := by
  intro rows
  induction rows with
  | nil => intro idx; rfl
  | cons r rest ih =>
      intro idx
      simp [compoundSteps, ih]

/-- Each step of the compounding loop: aligned with its source row, the next
point carries the row's year, multiplies the previous index by
`1 + inflation/100`, and sets the adjusted value to
`initial_amount * price_index / 100`. -/
theorem compoundSteps_recurrence (amt : ℚ) :
    ∀ (rows : List InflationRecord) (idx : ℚ) (p0 : SeriesPoint),
      p0.price_index = idx →
      ∀ x ∈ (((p0 :: compoundSteps amt idx rows).zip
                (compoundSteps amt idx rows)).zip rows),
        x.1.2.year = x.2.year ∧
        x.1.2.price_index = x.1.1.price_index * (1 + x.2.inflation / 100) ∧
        x.1.2.adjusted_value = amt * (x.1.2.price_index / 100) := by
  intro rows
  induction rows with
  | nil => intro idx p0 _ x hx; simp [compoundSteps] at hx
  | cons r rest ih =>
      intro idx p0 hp0 x hx
      simp only [compoundSteps, List.zip_cons_cons] at hx
      rcases List.mem_cons.1 hx with h | h
      · subst h
        refine ⟨rfl, ?_, rfl⟩
        simp [hp0]
      · exact ih (idx * (1 + r.inflation / 100)) _ rfl x h

/-- Membership in the selected rows. -/
theorem mem_selectCountryRows (c : String) (s e : ℤ)
    (df : List InflationRecord) (r : InflationRecord) :
    r ∈ selectCountryRows c s e df ↔
      r ∈ df ∧ r.country = c ∧ s ≤ r.year ∧ r.year ≤ e := by
  unfold selectCountryRows
  rw [(List.perm_insertionSort byYearLE _).mem_iff, List.mem_filter]
  simp [and_comm]

/-- The selected rows are sorted ascending by year. -/
theorem sorted_selectCountryRows (c : String) (s e : ℤ)
    (df : List InflationRecord) :
    (selectCountryRows c s e df).Sorted byYearLE :=
  List.sorted_insertionSort byYearLE _

/-- C1: `adjust` selects the country's in-range rows sorted ascending by year,
signals NotFound exactly when that selection is empty, otherwise seeds
`(start_year, 100, initial_amount)` and compounds each subsequent row
(skipping rows at `start_year`) by `price_index * (1 + inflation/100)` with
`adjusted_value = initial_amount * price_index / 100`; on the table
`{(A,2020,5), (A,2021,-2), (A,2022,8)}` the call `adjust("A",2020,2022,100)`
yields the price-index sequence `[100, 98, 105.84]` and final adjusted value
`105.84`. -/
theorem calculate_adjusted_value_spec :
    (∀ (c : String) (s e : ℤ) (amt : ℚ) (df : List InflationRecord),
      (calculate_adjusted_value c s e amt df = none ↔
        selectCountryRows c s e df = []) ∧
      (∀ r, r ∈ selectCountryRows c s e df ↔
        r ∈ df ∧ r.country = c ∧ s ≤ r.year ∧ r.year ≤ e) ∧
      (selectCountryRows c s e df).Sorted byYearLE ∧
      (∀ series final,
        calculate_adjusted_value c s e amt df = some (series, final) →
        series.head? = some ⟨s, 100, amt⟩ ∧
        series.map (fun p => p.year) =
          s :: ((selectCountryRows c s e df).filter
                  (fun r => r.year ≠ s)).map (fun r => r.year) ∧
        (∀ x ∈ ((series.zip series.tail).zip
                  ((selectCountryRows c s e df).filter (fun r => r.year ≠ s))),
          x.1.2.year = x.2.year ∧
          x.1.2.price_index = x.1.1.price_index * (1 + x.2.inflation / 100) ∧
          x.1.2.adjusted_value = amt * (x.1.2.price_index / 100)) ∧
        final = (series.getLastD ⟨s, 100, amt⟩).adjusted_value)) ∧
    calculate_adjusted_value "A" 2020 2022 100
        [⟨"A", 2020, 5⟩, ⟨"A", 2021, -2⟩, ⟨"A", 2022, 8⟩] =
      some ([⟨2020, 100, 100⟩, ⟨2021, 98, 98⟩, ⟨2022, 2646/25, 2646/25⟩],
            2646/25) := by
  constructor
  · intro c s e amt df
    refine ⟨?_, fun r => mem_selectCountryRows c s e df r,
            sorted_selectCountryRows c s e df, ?_⟩
    · unfold calculate_adjusted_value
      by_cases h : (selectCountryRows c s e df).isEmpty
      · simp [h, List.isEmpty_iff.1 h]
      · simp only [h, if_neg]
        simp [List.isEmpty_iff] at h
        simp [h]
    · intro series final hsf
      unfold calculate_adjusted_value at hsf
      by_cases h : (selectCountryRows c s e df).isEmpty
      · simp [h] at hsf
      · simp only [h, Bool.false_eq_true, if_false, Option.some.injEq,
          Prod.mk.injEq] at hsf
        obtain ⟨hser, hfin⟩ := hsf
        subst hser
        refine ⟨rfl, ?_, ?_, hfin.symm⟩
        · simp [compoundSteps_map_year]
        · intro x hx
          exact compoundSteps_recurrence amt _ 100 ⟨s, 100, amt⟩ rfl x hx
  · have hsel : selectCountryRows "A" 2020 2022
        [⟨"A", 2020, 5⟩, ⟨"A", 2021, -2⟩, ⟨"A", 2022, 8⟩] =
        [⟨"A", 2020, 5⟩, ⟨"A", 2021, -2⟩, ⟨"A", 2022, 8⟩] := by
      unfold selectCountryRows
      simp [List.filter, List.insertionSort, List.orderedInsert, byYearLE]
    unfold calculate_adjusted_value
    rw [hsel]
    simp only [List.isEmpty_cons, Bool.false_eq_true, if_false]
    norm_num [List.filter, compoundSteps, List.getLastD]

/-- Witness for `calculate_adjusted_value_spec`: the series head at the
end-to-end example, with the `some`-result hypothesis discharged by the
example itself. -/
theorem calculate_adjusted_value_spec_witness :
    ([⟨2020, 100, 100⟩, ⟨2021, 98, 98⟩,
        ⟨2022, 2646/25, 2646/25⟩] : List SeriesPoint).head? =
      some ⟨2020, 100, 100⟩ :=
  ((calculate_adjusted_value_spec.1 "A" 2020 2022 100
      [⟨"A", 2020, 5⟩, ⟨"A", 2021, -2⟩, ⟨"A", 2022, 8⟩]).2.2.2
    _ _ calculate_adjusted_value_spec.2).1

/-- C7: compounding is multiplicative — applying rates `r1` then `r2` to an
initial amount gives the same final adjusted value as applying the single
equivalent compounded rate `(1+r1)(1+r2)-1` once (both equal
`amt * (1+r1/100) * (1+r2/100)`); and whenever the selection is non-empty but
contains no row beyond `start_year`, the final adjusted value is the initial
amount unchanged. -/
theorem compounding_multiplicative_and_seed :
    (∀ (amt r1 r2 : ℚ),
      (calculate_adjusted_value "A" 2020 2022 amt
          [⟨"A", 2021, r1⟩, ⟨"A", 2022, r2⟩]).map Prod.snd =
        some (amt * ((1 + r1 / 100) * (1 + r2 / 100))) ∧
      (calculate_adjusted_value "A" 2020 2022 amt
          [⟨"A", 2021, 100 * ((1 + r1 / 100) * (1 + r2 / 100) - 1)⟩]).map
          Prod.snd =
        some (amt * ((1 + r1 / 100) * (1 + r2 / 100)))) ∧
    (∀ (c : String) (s e : ℤ) (amt : ℚ) (df : List InflationRecord),
      selectCountryRows c s e df ≠ [] →
      (∀ r ∈ selectCountryRows c s e df, r.year = s) →
      (calculate_adjusted_value c s e amt df).map Prod.snd = some amt) := by
  constructor
  · intro amt r1 r2
    constructor
    · have hsel : selectCountryRows "A" 2020 2022
          [⟨"A", 2021, r1⟩, ⟨"A", 2022, r2⟩] =
          [⟨"A", 2021, r1⟩, ⟨"A", 2022, r2⟩] := by
        unfold selectCountryRows
        simp [List.filter, List.insertionSort, List.orderedInsert, byYearLE]
      unfold calculate_adjusted_value
      rw [hsel]
      simp only [List.isEmpty_cons, Bool.false_eq_true, if_false]
      simp only [List.filter, compoundSteps, List.getLastD, Option.map_some,
        Option.some.injEq]
      norm_num
      exact Or.inl (by ring)
    · have hsel : selectCountryRows "A" 2020 2022
          [⟨"A", 2021, 100 * ((1 + r1 / 100) * (1 + r2 / 100) - 1)⟩] =
          [⟨"A", 2021, 100 * ((1 + r1 / 100) * (1 + r2 / 100) - 1)⟩] := by
        unfold selectCountryRows
        simp [List.filter, List.insertionSort, List.orderedInsert, byYearLE]
      unfold calculate_adjusted_value
      rw [hsel]
      simp only [List.isEmpty_cons, Bool.false_eq_true, if_false]
      simp only [List.filter, compoundSteps, List.getLastD, Option.map_some,
        Option.some.injEq]
      norm_num
  · intro c s e amt df hne hall
    unfold calculate_adjusted_value
    have hrows : (selectCountryRows c s e df).filter (fun r => r.year ≠ s) =
        [] := by
      rw [List.filter_eq_nil_iff]
      intro r hr
      simp [hall r hr]
    have hemp : (selectCountryRows c s e df).isEmpty = false := by
      simp [List.isEmpty_iff, hne]
    simp only [ne_eq, decide_not] at hrows
    simp [hemp, hrows, compoundSteps, List.getLastD]

/-- Witness for `compounding_multiplicative_and_seed`: the seed-only edge case
on a concrete one-row table with `start_year = end_year`. -/
theorem compounding_multiplicative_and_seed_witness :
    (calculate_adjusted_value "A" 2020 2020 250
        [⟨"A", 2020, 7⟩]).map Prod.snd = some 250 :=
  compounding_multiplicative_and_seed.2 "A" 2020 2020 250 [⟨"A", 2020, 7⟩]
    (by decide) (by decide)

/-- C10 (implicit): whenever `adjust` does not signal NotFound, the first
series element is exactly `(start_year, 100, initial_amount)` — even when the
country has no observation at `start_year` itself — and the subsequent years
are exactly the country's in-range observation years strictly greater than
`start_year`, in strictly ascending order (under the data-model invariant of
at most one record per `(country, year)`). -/
theorem adjusted_series_first_point_and_years :
    ∀ (c : String) (s e : ℤ) (amt : ℚ) (df : List InflationRecord),
      KeyUnique df →
      ∀ series final,
        calculate_adjusted_value c s e amt df = some (series, final) →
        series.head? = some ⟨s, 100, amt⟩ ∧
        List.Chain' (fun p q : SeriesPoint => p.year < q.year) series ∧
        ∀ y : ℤ,
          y ∈ series.tail.map (fun p => p.year) ↔
            ∃ r ∈ df, r.country = c ∧ r.year = y ∧ s < y ∧ y ≤ e := by
  intro c s e amt df hkey series final hsf
  unfold calculate_adjusted_value at hsf
  by_cases h : (selectCountryRows c s e df).isEmpty
  · simp [h] at hsf
  · simp only [h, Bool.false_eq_true, if_false, Option.some.injEq,
      Prod.mk.injEq] at hsf
    obtain ⟨hser, hfin⟩ := hsf
    have hmemrows : ∀ r : InflationRecord,
        r ∈ (selectCountryRows c s e df).filter (fun x => x.year ≠ s) ↔
          r ∈ df ∧ r.country = c ∧ s ≤ r.year ∧ r.year ≤ e ∧ r.year ≠ s := by
      intro r
      rw [List.mem_filter, mem_selectCountryRows]
      simp
      tauto
    have hpairrows : ((selectCountryRows c s e df).filter
        (fun x => x.year ≠ s)).Pairwise
          (fun a b => a.year < b.year) := by
      have hle : ((selectCountryRows c s e df).filter
          (fun x => x.year ≠ s)).Pairwise byYearLE :=
        (sorted_selectCountryRows c s e df).sublist (List.filter_sublist _)
      have hperm := List.perm_insertionSort byYearLE
        (df.filter (fun r => r.country = c ∧ s ≤ r.year ∧ r.year ≤ e))
      have hsymm : ∀ {a b : InflationRecord},
          (a.country = b.country → a.year ≠ b.year) →
          (b.country = a.country → b.year ≠ a.year) :=
        fun hab hc => (hab hc.symm).symm
      have hkeycd : (selectCountryRows c s e df).Pairwise
          (fun a b => a.country = b.country → a.year ≠ b.year) := by
        unfold selectCountryRows
        exact ((hperm.pairwise_iff hsymm).2
          (hkey.sublist (List.filter_sublist _)))
      have hne : ((selectCountryRows c s e df).filter
          (fun x => x.year ≠ s)).Pairwise
            (fun a b => a.year ≠ b.year) := by
        refine ((hkeycd.sublist (List.filter_sublist _)).imp_of_mem ?_)
        intro a b ha hb hab
        have hac := ((hmemrows a).1 ha).2.1
        have hbc := ((hmemrows b).1 hb).2.1
        exact hab (hac.trans hbc.symm)
      exact (hle.and hne).imp (fun hx => lt_of_le_of_ne hx.1 hx.2)
    subst hser
    refine ⟨rfl, ?_, ?_⟩
    · have hmapyear :
          ((⟨s, 100, amt⟩ :: compoundSteps amt 100
              ((selectCountryRows c s e df).filter
                (fun x => x.year ≠ s))).map (fun p => p.year)) =
          s :: ((selectCountryRows c s e df).filter
                  (fun x => x.year ≠ s)).map (fun r => r.year) := by
        simp [compoundSteps_map_year]
      rw [← List.chain'_map (fun p : SeriesPoint => p.year)
        (R := fun a b : ℤ => a < b)]
      rw [hmapyear]
      rw [List.chain'_iff_pairwise]
      rw [List.pairwise_cons]
      constructor
      · intro y hy
        obtain ⟨r, hr, hry⟩ := List.mem_map.1 hy
        have := (hmemrows r).1 hr
        omega
      · rw [List.pairwise_map]
        exact hpairrows
    · intro y
      simp only [List.tail_cons, compoundSteps_map_year, List.mem_map]
      constructor
      · rintro ⟨r, hr, hry⟩
        have := (hmemrows r).1 hr
        exact ⟨r, this.1, this.2.1, hry, by omega, by omega⟩
      · rintro ⟨r, hrdf, hc, hy, hlt, hle⟩
        exact ⟨r, (hmemrows r).2 ⟨hrdf, hc, by omega, by omega, by omega⟩, hy⟩

/-- Witness for `adjusted_series_first_point_and_years`: a table whose only
observation for country A is at 2021, later than the requested start year
2020; the series is still seeded at `(2020, 100, 50)`. -/
theorem adjusted_series_first_point_and_years_witness :
    ([⟨2020, 100, 50⟩, ⟨2021, 110, 55⟩] : List SeriesPoint).head? =
      some ⟨2020, 100, 50⟩ :=
  (adjusted_series_first_point_and_years "A" 2020 2022 50 [⟨"A", 2021, 10⟩]
    (by unfold KeyUnique; decide) [⟨2020, 100, 50⟩, ⟨2021, 110, 55⟩] 55
    (by unfold calculate_adjusted_value selectCountryRows
        norm_num [List.filter, List.insertionSort, List.orderedInsert,
          byYearLE, compoundSteps, List.getLastD])).1

/-! ## Pattern Analysis: the shared pivot/fill matrix construction
(src/analytics.py lines 202-210 and 242-251)

`pivot_table(values='inflation', index='country', columns='year',
aggfunc='mean')` produces a matrix whose rows are the sorted distinct
countries, whose columns are the sorted distinct years, and whose cell for
`(country, year)` is the mean inflation of the matching records (absent when
there is no matching record).  `.fillna(method='ffill')` and
`.fillna(method='bfill')` then act along axis 0 — down each year column,
across countries in row order — and `.fillna(0)` zeroes what remains.  Only
after the fills does `pivot_data[pivot_data.index.isin(COUNTRY_COORDS.keys())]`
restrict the rows to countries with coordinates. -/

/-- Lexicographic comparison of strings by their character lists (the
comparison pandas uses to sort the pivot index). -/
def strLT (a b : String) : Prop := a.data < b.data

instance : DecidableRel strLT :=
  fun a b => inferInstanceAs (Decidable (a.data < b.data))

/-- Insert into a strictly-sorted duplicate-free list, keeping it so. -/
def insSorted [DecidableEq α] (lt : α → α → Prop) [DecidableRel lt] (x : α) :
    List α → List α
  | [] => [x]
  | y :: ys =>
      if lt x y then x :: y :: ys
      else if x = y then y :: ys
      else y :: insSorted lt x ys

/-- The sorted list of distinct elements of `l` (the pivot index/columns). -/
def sortedDedup [DecidableEq α] (lt : α → α → Prop) [DecidableRel lt]
    (l : List α) : List α :=
  l.foldr (insSorted lt) []

theorem mem_insSorted [DecidableEq α] (lt : α → α → Prop) [DecidableRel lt]
    (x a : α) : ∀ l : List α, a ∈ insSorted lt x l ↔ a = x ∨ a ∈ l := by
  intro l
  induction l with
  | nil => simp [insSorted]
  | cons y ys ih =>
      unfold insSorted
      by_cases h1 : lt x y
      · simp [h1]
      · by_cases h2 : x = y
        · subst h2
          simp [h1]
        · simp [h1, h2, ih]
          tauto

theorem mem_sortedDedup [DecidableEq α] (lt : α → α → Prop) [DecidableRel lt]
    (a : α) : ∀ l : List α, a ∈ sortedDedup lt l ↔ a ∈ l := by
  intro l
  induction l with
  | nil => simp [sortedDedup]
  | cons y ys ih =>
      unfold sortedDedup at ih ⊢
      simp [List.foldr_cons, mem_insSorted, ih]

/-- Inserting into a strictly-sorted list keeps it strictly sorted (for a
connected strict order such as `<` on `ℤ`). -/
theorem sorted_insSorted [DecidableEq α] (lt : α → α → Prop) [DecidableRel lt]
    (hconn : ∀ a b : α, ¬ lt a b → a ≠ b → lt b a)
    (htrans : ∀ a b c : α, lt a b → lt b c → lt a c) (x : α) :
    ∀ l : List α, l.Sorted lt → (insSorted lt x l).Sorted lt := by
  intro l
  induction l with
  | nil => intro _; simp [insSorted]
  | cons y ys ih =>
      intro hs
      rw [List.sorted_cons] at hs
      unfold insSorted
      by_cases h1 : lt x y
      · rw [if_pos h1]
        rw [List.sorted_cons]
        refine ⟨?_, List.sorted_cons.2 hs⟩
        intro b hb
        rcases List.mem_cons.1 hb with rfl | hb
        · exact h1
        · exact htrans x y b h1 (hs.1 b hb)
      · by_cases h2 : x = y
        · rw [if_neg h1, if_pos h2]
          exact List.sorted_cons.2 hs
        · rw [if_neg h1, if_neg h2]
          rw [List.sorted_cons]
          refine ⟨?_, ih hs.2⟩
          intro b hb
          rcases (mem_insSorted lt x b ys).1 hb with h | hb
          · subst h
            exact hconn b y h1 h2
          · exact hs.1 b hb

/-- The sorted distinct countries of the table: the pivot's row index. -/
def pivotCountries (df : List InflationRecord) : List String :=
  sortedDedup strLT (df.map (fun r => r.country))

/-- The sorted distinct years of the table: the pivot's columns. -/
def pivotYears (df : List InflationRecord) : List ℤ :=
  sortedDedup (fun a b : ℤ => a < b) (df.map (fun r => r.year))

/-- The inflation values of the records matching `(country, year)`. -/
def cellValues (df : List InflationRecord) (c : String) (y : ℤ) : List ℚ :=
  (df.filter (fun r => r.country = c ∧ r.year = y)).map (fun r => r.inflation)

/-- One raw pivot cell: `aggfunc='mean'` over the matching records; absent
(NaN) when no record matches. -/
def rawCell (df : List InflationRecord) (c : String) (y : ℤ) : Option ℚ :=
  let v := cellValues df c y
  if v.isEmpty then none else some (v.sum / v.length)

/-- The raw pivot grid, row-major: one `(country, row)` per sorted distinct
country, the row holding one optional cell per sorted distinct year. -/
def rawGrid (df : List InflationRecord) : List (String × List (Option ℚ)) :=
  (pivotCountries df).map
    (fun c => (c, (pivotYears df).map (fun y => rawCell df c y)))

/-- A cell keeps its own value and otherwise takes the running memory —
the elementwise step of a forward fill. -/
def orElse2 (cell mem : Option ℚ) : Option ℚ :=
  match cell with
  | some v => some v
  | none => mem

/-- Forward fill down the grid: each row takes, per column, its own value or
the last value seen above it in that column (`fillna(method='ffill')`,
axis 0). -/
def ffillAux (mem : List (Option ℚ)) :
    List (String × List (Option ℚ)) → List (String × List (Option ℚ))
  | [] => []
  | (c, row) :: rest =>
      let row2 := List.zipWith orElse2 row mem
      (c, row2) :: ffillAux row2 rest

/-- `fillna(method='ffill')` on the whole grid (`n` = number of columns). -/
def ffillGrid (n : ℕ) (g : List (String × List (Option ℚ))) :
    List (String × List (Option ℚ)) :=
  ffillAux (List.replicate n none) g

/-- `fillna(method='bfill')`: a forward fill run bottom-up. -/
def bfillGrid (n : ℕ) (g : List (String × List (Option ℚ))) :
    List (String × List (Option ℚ)) :=
  (ffillAux (List.replicate n none) g.reverse).reverse

/-- `fillna(0)`: every still-missing cell becomes `0`. -/
def fillZero (g : List (String × List (Option ℚ))) : List (String × List ℚ) :=
  g.map (fun cr => (cr.1, cr.2.map (fun o => o.getD 0)))

/-- The fully filled pivot grid, before the coordinate restriction:
`pivot_table(...).fillna(method='ffill').fillna(method='bfill').fillna(0)`. -/
def filledGrid (df : List InflationRecord) : List (String × List ℚ) :=
  fillZero (bfillGrid (pivotYears df).length
    (ffillGrid (pivotYears df).length (rawGrid df)))

/-- The pivot matrix shared by `cluster_countries` and
`find_similar_countries`: the filled grid restricted — after the fills — to
countries present in `COUNTRY_COORDS`
(`pivot_data[pivot_data.index.isin(COUNTRY_COORDS.keys())]`). -/
def buildPivot (coords : Coords) (df : List InflationRecord) :
    List (String × List ℚ) :=
  (filledGrid df).filter (fun cr => (coords.lookup cr.1).isSome)

/-! ### One-dimensional reference fills, for the column characterization -/

/-- One-dimensional forward fill with initial memory `m`. -/
def scanFill (m : Option ℚ) : List (Option ℚ) → List (Option ℚ)
  | [] => []
  | c :: rest =>
      let c2 := orElse2 c m
      c2 :: scanFill c2 rest

/-- One-dimensional `ffill`. -/
def ffill1d (l : List (Option ℚ)) : List (Option ℚ) := scanFill none l

/-- One-dimensional `bfill`. -/
def bfill1d (l : List (Option ℚ)) : List (Option ℚ) :=
  (scanFill none l.reverse).reverse

/-- One-dimensional `ffill` then `bfill` then `fillna(0)`. -/
def fillColumn (l : List (Option ℚ)) : List ℚ :=
  (bfill1d (ffill1d l)).map (fun o => o.getD 0)

/-- Extract column `j` from a row-major optional grid. -/
def gridColumn (j : ℕ) (g : List (String × List (Option ℚ))) :
    List (Option ℚ) :=
  g.map (fun cr => cr.2.getD j none)

/-- Extract column `j` from a row-major rational grid. -/
def gridColumnQ (j : ℕ) (g : List (String × List ℚ)) : List ℚ :=
  g.map (fun cr => cr.2.getD j 0)

/-- The matrix construction as claim C2 reads: restrict the raw pivot rows to
`CountryReference` countries first, then fill each country's gaps along its
own row of years (forward-fill, then backward-fill, then 0). -/
def buildPivotSpec (coords : Coords) (df : List InflationRecord) :
    List (String × List ℚ) :=
  ((rawGrid df).filter (fun cr => (coords.lookup cr.1).isSome)).map
    (fun cr => (cr.1, fillColumn cr.2))

/-! ### Lemmas: the grid fills act columnwise -/

theorem getD_zipWith_orElse2 :
    ∀ (as bs : List (Option ℚ)) (j : ℕ), as.length = bs.length →
      (List.zipWith orElse2 as bs).getD j none =
        orElse2 (as.getD j none) (bs.getD j none) := by
  intro as
  induction as with
  | nil =>
      intro bs j hlen
      cases bs with
      | nil => simp [orElse2]
      | cons b bs => simp at hlen
  | cons a as ih =>
      intro bs j hlen
      cases bs with
      | nil => simp at hlen
      | cons b bs =>
          cases j with
          | zero => simp
          | succ j =>
              simp only [List.zipWith_cons_cons, List.getD_cons_succ]
              exact ih bs j (by simpa using hlen)

theorem getD_replicate_none (n j : ℕ) :
    (List.replicate n (none : Option ℚ)).getD j none = none := by
  induction n generalizing j with
  | zero => simp
  | succ n ih =>
      cases j with
      | zero => simp [List.replicate]
      | succ j => simp only [List.replicate, List.getD_cons_succ]; exact ih j

theorem ffillAux_lengths :
    ∀ (g : List (String × List (Option ℚ))) (mem : List (Option ℚ)),
      (∀ r ∈ g, r.2.length = mem.length) →
      ∀ r ∈ ffillAux mem g, r.2.length = mem.length := by
  intro g
  induction g with
  | nil => intro mem _ r hr; simp [ffillAux] at hr
  | cons cr rest ih =>
      obtain ⟨c, row⟩ := cr
      intro mem hlen r hr
      have hrow : row.length = mem.length := hlen (c, row) (by simp)
      have hrow2 : (List.zipWith orElse2 row mem).length = mem.length := by
        simp [List.length_zipWith, hrow]
      simp only [ffillAux, List.mem_cons] at hr
      rcases hr with rfl | hr
      · exact hrow2
      · have := ih (List.zipWith orElse2 row mem)
          (fun r hrmem => by rw [hrow2]; exact hlen r (by simp [hrmem]))
        rw [← hrow2]
        exact this r hr

theorem gridColumn_ffillAux :
    ∀ (g : List (String × List (Option ℚ))) (mem : List (Option ℚ)) (j : ℕ),
      (∀ r ∈ g, r.2.length = mem.length) →
      gridColumn j (ffillAux mem g) =
        scanFill (mem.getD j none) (gridColumn j g) := by
  intro g
  induction g with
  | nil => intro mem j _; simp [ffillAux, gridColumn, scanFill]
  | cons cr rest ih =>
      obtain ⟨c, row⟩ := cr
      intro mem j hlen
      have hrow : row.length = mem.length := hlen (c, row) (by simp)
      have hrow2 : (List.zipWith orElse2 row mem).length = mem.length := by
        simp [List.length_zipWith, hrow]
      have hhead : (List.zipWith orElse2 row mem).getD j none =
          orElse2 (row.getD j none) (mem.getD j none) :=
        getD_zipWith_orElse2 row mem j hrow
      simp only [ffillAux, gridColumn, List.map_cons, scanFill]
      rw [hhead]
      congr 1
      have ihr := ih (List.zipWith orElse2 row mem) j
        (fun r hrmem => by rw [hrow2]; exact hlen r (by simp [hrmem]))
      unfold gridColumn at ihr
      rw [ihr, hhead]

theorem gridColumn_reverse (j : ℕ) (g : List (String × List (Option ℚ))) :
    gridColumn j g.reverse = (gridColumn j g).reverse := by
  simp [gridColumn]

theorem getD_map_getD (l : List (Option ℚ)) :
    ∀ j : ℕ, (l.map (fun o => o.getD 0)).getD j 0 = (l.getD j none).getD 0 := by
  induction l with
  | nil => intro j; simp
  | cons a l ih =>
      intro j
      cases j with
      | zero => simp
      | succ j => simpa using ih j

theorem gridColumnQ_fillZero (j : ℕ) (g : List (String × List (Option ℚ))) :
    gridColumnQ j (fillZero g) =
      (gridColumn j g).map (fun o => o.getD 0) := by
  unfold gridColumnQ fillZero gridColumn
  rw [List.map_map, List.map_map]
  apply List.map_congr_left
  intro cr _
  exact getD_map_getD cr.2 j

/-- The lengths of the raw grid's rows: one cell per pivot year. -/
theorem rawGrid_lengths (df : List InflationRecord) :
    ∀ r ∈ rawGrid df, r.2.length = (pivotYears df).length := by
  intro r hr
  simp only [rawGrid, List.mem_map] at hr
  obtain ⟨c, _, rfl⟩ := hr
  simp

/-- The composite fill of the source acts on each year column independently:
column `j` of the filled grid is the one-dimensional
forward-fill/backward-fill/zero fill of column `j` of the raw pivot — the
fills run down the column across countries, not along a country's row. -/
theorem gridColumnQ_filledGrid (df : List InflationRecord) (j : ℕ) :
    gridColumnQ j (filledGrid df) = fillColumn (gridColumn j (rawGrid df)) := by
  unfold filledGrid fillColumn
  rw [gridColumnQ_fillZero]
  congr 1
  unfold bfillGrid ffillGrid bfill1d ffill1d
  have hlenraw : ∀ r ∈ rawGrid df,
      r.2.length = (List.replicate (pivotYears df).length
        (none : Option ℚ)).length := by
    simpa using rawGrid_lengths df
  have hffill := gridColumn_ffillAux (rawGrid df)
    (List.replicate (pivotYears df).length none) j hlenraw
  have hlenff : ∀ r ∈ (ffillAux (List.replicate (pivotYears df).length none)
      (rawGrid df)).reverse,
      r.2.length = (List.replicate (pivotYears df).length
        (none : Option ℚ)).length := by
    intro r hr
    exact ffillAux_lengths (rawGrid df) _ hlenraw r (List.mem_reverse.1 hr)
  have hbfill := gridColumn_ffillAux _
    (List.replicate (pivotYears df).length none) j hlenff
  rw [gridColumn_reverse, hbfill, gridColumn_reverse, hffill,
    getD_replicate_none]

theorem ffillAux_map_fst :
    ∀ (g : List (String × List (Option ℚ))) (mem : List (Option ℚ)),
      (ffillAux mem g).map Prod.fst = g.map Prod.fst := by
  intro g
  induction g with
  | nil => intro mem; rfl
  | cons cr rest ih =>
      obtain ⟨c, row⟩ := cr
      intro mem
      simp only [ffillAux, List.map_cons]
      rw [ih]

theorem filledGrid_map_fst (df : List InflationRecord) :
    (filledGrid df).map Prod.fst = pivotCountries df := by
  unfold filledGrid fillZero bfillGrid ffillGrid
  rw [List.map_map]
  have h1 : ((fun cr : String × List ℚ => cr.1) ∘
      fun cr : String × List (Option ℚ) =>
        (cr.1, cr.2.map (fun o => o.getD 0))) = Prod.fst := rfl
  rw [h1, List.map_reverse, ffillAux_map_fst, List.map_reverse,
    List.reverse_reverse, ffillAux_map_fst]
  unfold rawGrid
  rw [List.map_map]
  have h2 : (Prod.fst ∘ fun c : String =>
      (c, (pivotYears df).map (fun y => rawCell df c y))) = id := rfl
  rw [h2, List.map_id]

theorem filledGrid_lengths (df : List InflationRecord) :
    ∀ r ∈ filledGrid df, r.2.length = (pivotYears df).length := by
  intro r hr
  unfold filledGrid fillZero at hr
  rw [List.mem_map] at hr
  obtain ⟨cr, hcr, rfl⟩ := hr
  simp only [List.length_map]
  unfold bfillGrid at hcr
  rw [List.mem_reverse] at hcr
  have hlenraw : ∀ r ∈ rawGrid df,
      r.2.length = (List.replicate (pivotYears df).length
        (none : Option ℚ)).length := by
    simpa using rawGrid_lengths df
  have hff := ffillAux_lengths (rawGrid df) _ hlenraw
  have hffrev : ∀ r ∈ (ffillGrid (pivotYears df).length (rawGrid df)).reverse,
      r.2.length = (List.replicate (pivotYears df).length
        (none : Option ℚ)).length := by
    intro r hr
    exact hff r (List.mem_reverse.1 hr)
  have := ffillAux_lengths _ _ hffrev cr hcr
  simpa using this

/-- C2 (amended): the matrix shared by clustering and similarity is the
pivot of mean inflation over sorted distinct countries and years, whose
missing cells are filled down each year column (across countries, in sorted
row order) by forward-fill then backward-fill then 0, with the restriction to
CountryReference countries applied only after the fills; afterwards no cell
is missing (every row carries one value per year column). -/
theorem pivot_matrix_construction :
    ∀ (coords : Coords) (df : List InflationRecord),
      (buildPivot coords df).map Prod.fst =
        (pivotCountries df).filter (fun c => (coords.lookup c).isSome) ∧
      (∀ c, c ∈ pivotCountries df ↔ c ∈ df.map (fun r => r.country)) ∧
      (pivotYears df).Sorted (fun a b : ℤ => a < b) ∧
      (∀ y, y ∈ pivotYears df ↔ y ∈ df.map (fun r => r.year)) ∧
      (∀ row ∈ buildPivot coords df,
        row.2.length = (pivotYears df).length) ∧
      (∀ j, gridColumnQ j (filledGrid df) =
        fillColumn (gridColumn j (rawGrid df))) := by
  intro coords df
  refine ⟨?_, ?_, ?_, ?_, ?_, gridColumnQ_filledGrid df⟩
  · unfold buildPivot
    rw [← filledGrid_map_fst df, List.filter_map]
    rfl
  · intro c
    exact mem_sortedDedup strLT c _
  · unfold pivotYears sortedDedup
    induction (df.map (fun r => r.year)) with
    | nil => simp
    | cons y ys ih =>
        exact sorted_insSorted _ (fun a b h1 h2 => by omega)
          (fun a b c h1 h2 => by omega) y _ ih
  · intro y
    exact mem_sortedDedup _ y _
  · intro row hrow
    exact filledGrid_lengths df row (List.mem_filter.1 hrow).1

/-- A small demonstration table: Atlantis (no coordinates) observed only in
2020, Germany (has coordinates) observed only in 2021. -/
def pivotDemoTable : List InflationRecord :=
  [⟨"Atlantis", 2020, 7⟩, ⟨"Germany", 2021, 3⟩]

theorem pivotDemo_rawGrid :
    rawGrid pivotDemoTable =
      [("Atlantis", [some 7, none]), ("Germany", [none, some 3])] := by
  have h1 : pivotCountries pivotDemoTable = ["Atlantis", "Germany"] := by
    decide
  have h2 : pivotYears pivotDemoTable = [2020, 2021] := by decide
  have h3 : rawCell pivotDemoTable "Atlantis" 2020 = some 7 := by
    simp only [rawCell]
    rw [show cellValues pivotDemoTable "Atlantis" 2020 = [7] from by decide]
    norm_num
  have h4 : rawCell pivotDemoTable "Atlantis" 2021 = none := by decide
  have h5 : rawCell pivotDemoTable "Germany" 2020 = none := by decide
  have h6 : rawCell pivotDemoTable "Germany" 2021 = some 3 := by
    simp only [rawCell]
    rw [show cellValues pivotDemoTable "Germany" 2021 = [3] from by decide]
    norm_num
  unfold rawGrid
  rw [h1, h2]
  simp [h3, h4, h5, h6]

theorem buildPivot_demo_eval :
    buildPivot COUNTRY_COORDS pivotDemoTable = [("Germany", [7, 3])] := by
  unfold buildPivot filledGrid
  rw [pivotDemo_rawGrid,
    show pivotYears pivotDemoTable = [2020, 2021] from by decide]
  decide

theorem buildPivotSpec_demo_eval :
    buildPivotSpec COUNTRY_COORDS pivotDemoTable = [("Germany", [3, 3])] := by
  unfold buildPivotSpec
  rw [pivotDemo_rawGrid]
  decide

/-- Witness for `pivot_matrix_construction`: the row-length conjunct at a
concrete table. -/
theorem pivot_matrix_construction_witness :
    (("Germany", [(7 : ℚ), 3]) : String × List ℚ).2.length =
      (pivotYears pivotDemoTable).length :=
  (pivot_matrix_construction COUNTRY_COORDS pivotDemoTable).2.2.2.2.1
    ("Germany", [7, 3]) (by rw [buildPivot_demo_eval]; simp)

/-- Counterexample to C2 as stated: with Atlantis lacking coordinates and
Germany having them, the table `{(Atlantis,2020,7), (Germany,2021,3)}` gives
Germany the row `[7, 3]` — its missing 2020 cell is forward-filled from the
excluded country Atlantis, not from Germany's own neighbouring years, which
would give `[3, 3]` as the claim's restrict-first/fill-along-rows
construction does. -/
theorem pivot_fill_crosses_countries :
    buildPivot COUNTRY_COORDS pivotDemoTable = [("Germany", [7, 3])] ∧
    buildPivotSpec COUNTRY_COORDS pivotDemoTable = [("Germany", [3, 3])] ∧
    buildPivot COUNTRY_COORDS pivotDemoTable ≠
      buildPivotSpec COUNTRY_COORDS pivotDemoTable := by
  refine ⟨buildPivot_demo_eval, buildPivotSpec_demo_eval, ?_⟩
  rw [buildPivot_demo_eval, buildPivotSpec_demo_eval]
  decide

/-! ## Pattern Analysis: `find_similar_countries`
(src/analytics.py lines 229-267) -/

/-- Dot product of two row vectors. -/
def dotQ (a b : List ℚ) : ℚ := (List.zipWith (· * ·) a b).sum

/-- Squared Euclidean norm of a row vector. -/
def sqNorm (a : List ℚ) : ℚ := dotQ a a

/-- Order-isomorphic rational encoding of the cosine similarity
`dot(a,t) / (‖a‖‖t‖)` of two pivot rows.  The cosine itself is irrational in
general; since `x ↦ sign(x)·x²` is strictly monotone on `ℝ`, the encoding
`sign(d)·d² / (‖a‖²‖t‖²)` compares (and ties) exactly as the cosine does.
A zero norm yields similarity `0`, as `sklearn`'s normalization does. -/
def simScore (a t : List ℚ) : ℚ :=
  let d := dotQ a t
  let p := sqNorm a * sqNorm t
  if p = 0 then 0 else if d < 0 then -(d ^ 2 / p) else d ^ 2 / p

/-- The sort key of `sort_values` on the similarity column. -/
def bySndLE (x y : String × ℚ) : Prop := x.2 ≤ y.2

instance : DecidableRel bySndLE :=
  fun x y => inferInstanceAs (Decidable (x.2 ≤ y.2))

instance : IsTotal (String × ℚ) bySndLE := ⟨fun x y => le_total x.2 y.2⟩

instance : IsTrans (String × ℚ) bySndLE :=
  ⟨fun _ _ _ hxy hyz => le_trans hxy hyz⟩

/-- `find_similar_countries(target_country, inflation_data, top_n)`: build the
shared pivot matrix; `None` when the target is not a row; otherwise take the
target's similarity column over all rows, sort it descending
(`sort_values(ascending=False)` — pandas sorts ascending stably and reverses),
and return the slice `[1 : top_n + 1]`, i.e. drop the first element of the
descending order and keep the next `top_n`. -/
def find_similar_countries (coords : Coords) (target : String)
    (df : List InflationRecord) (top_n : ℕ) : Option (List (String × ℚ)) :=
  match (buildPivot coords df).lookup target with
  | none => none
  | some tvec =>
      some ((((((buildPivot coords df).map
        (fun cr => (cr.1, simScore cr.2 tvec))).insertionSort
          bySndLE).reverse).drop 1).take top_n)

/-- C3 (amended): when the target country is a row of the trajectory matrix,
`similar` returns at most `top_n` entries, sorted descending by similarity
score, all drawn from the matrix's countries; the result is the descending
similarity column with only its first element dropped, so the target is
excluded only when it happens to sort first — with ties at the maximal score,
tie order is the reverse of pivot row order, not country name ascending, and
the dropped element can be another country.  When the target is not a row,
`similar` signals NotFound. -/
theorem find_similar_spec :
    ∀ (coords : Coords) (df : List InflationRecord) (target : String)
      (n : ℕ),
      ((buildPivot coords df).lookup target = none →
        find_similar_countries coords target df n = none) ∧
      (∀ res, find_similar_countries coords target df n = some res →
        res.length ≤ n ∧
        res.Sorted (fun x y : String × ℚ => y.2 ≤ x.2) ∧
        (∀ p ∈ res, p.1 ∈ (buildPivot coords df).map Prod.fst)) := by
  intro coords df target n
  constructor
  · intro hnone
    unfold find_similar_countries
    rw [hnone]
  · intro res hres
    unfold find_similar_countries at hres
    cases hlook : (buildPivot coords df).lookup target with
    | none => rw [hlook] at hres; cases hres
    | some tvec =>
        rw [hlook] at hres
        simp only [Option.some.injEq] at hres
        subst hres
        refine ⟨?_, ?_, ?_⟩
        · exact le_trans (List.length_take_le _ _) (le_refl n)
        · have hsorted : (((buildPivot coords df).map
              (fun cr => (cr.1, simScore cr.2 tvec))).insertionSort
                bySndLE).Sorted bySndLE :=
            List.sorted_insertionSort bySndLE _
          have hrev : ((((buildPivot coords df).map
              (fun cr => (cr.1, simScore cr.2 tvec))).insertionSort
                bySndLE).reverse).Pairwise
              (fun x y : String × ℚ => y.2 ≤ x.2) := by
            rw [List.pairwise_reverse]
            exact hsorted
          exact hrev.sublist
            ((List.take_sublist _ _).trans (List.drop_sublist _ _))
        · intro p hp
          have hmem : p ∈ (((buildPivot coords df).map
              (fun cr => (cr.1, simScore cr.2 tvec))).insertionSort
                bySndLE).reverse :=
            ((List.take_sublist _ _).trans (List.drop_sublist _ _)).mem hp
          rw [List.mem_reverse,
            (List.perm_insertionSort bySndLE _).mem_iff] at hmem
          rw [List.mem_map] at hmem
          obtain ⟨cr, hcr, rfl⟩ := hmem
          exact List.mem_map.2 ⟨cr, hcr, rfl⟩

/-- Witness for `find_similar_spec`: both the NotFound branch (Atlantis is
not a matrix row) and the bundle of result properties at a concrete call. -/
theorem find_similar_spec_witness :
    find_similar_countries COUNTRY_COORDS "Atlantis" pivotDemoTable 5 =
      none :=
  (find_similar_spec COUNTRY_COORDS pivotDemoTable "Atlantis" 5).1
    (by rw [buildPivot_demo_eval]; decide)

/-- Two coordinate-bearing countries with identical trajectories: a
similarity tie at the maximal score. -/
def tieDemoTable : List InflationRecord :=
  [⟨"France", 2020, 1⟩, ⟨"Germany", 2020, 1⟩]

theorem buildPivot_tie_eval :
    buildPivot COUNTRY_COORDS tieDemoTable =
      [("France", [1]), ("Germany", [1])] := by
  have h1 : pivotCountries tieDemoTable = ["France", "Germany"] := by decide
  have h2 : pivotYears tieDemoTable = [2020] := by decide
  have h3 : rawCell tieDemoTable "France" 2020 = some 1 := by
    simp only [rawCell]
    rw [show cellValues tieDemoTable "France" 2020 = [1] from by decide]
    norm_num
  have h4 : rawCell tieDemoTable "Germany" 2020 = some 1 := by
    simp only [rawCell]
    rw [show cellValues tieDemoTable "Germany" 2020 = [1] from by decide]
    norm_num
  have hraw : rawGrid tieDemoTable =
      [("France", [some 1]), ("Germany", [some 1])] := by
    unfold rawGrid
    rw [h1, h2]
    simp [h3, h4]
  unfold buildPivot filledGrid
  rw [hraw, h2]
  decide

/-- Counterexample to C3 as stated: on the table
`{(France,2020,1), (Germany,2020,1)}` both countries have cosine similarity 1
to the target France; pandas' descending sort (stable ascending argsort, then
reversed) puts Germany first, so the `[1:top_n+1]` slice drops Germany and
returns the target France itself — `similar` includes the target, and the tie
is not broken by country name ascending. -/
theorem find_similar_includes_target :
    find_similar_countries COUNTRY_COORDS "France" tieDemoTable 5 =
      some [("France", 1)] ∧
    ("France", (1 : ℚ)) ∈ [(("France" : String), (1 : ℚ))] := by
  constructor
  · have hscore : simScore [1] [1] = 1 := by
      norm_num [simScore, dotQ, sqNorm]
    unfold find_similar_countries
    rw [buildPivot_tie_eval,
      show (([("France", [(1 : ℚ)]), ("Germany", [1])] :
        List (String × List ℚ)).lookup "France") = some [1] from by decide]
    dsimp only
    simp only [List.map_cons, List.map_nil, hscore]
    decide
  · decide

/-! ## Pattern Analysis: `cluster_countries`
(src/analytics.py lines 189-226)

The source standardizes the pivot rows with `StandardScaler` and clusters
them with `KMeans(n_clusters, random_state=42, n_init=10)`.  Both live in
scikit-learn; they are modelled from the spec (§4.3): standardization
subtracts each column's mean and divides by its population standard
deviation (a zero-variance column becomes all zeros), and k-means is a
deterministic Lloyd-style iterative relocation — with the fixed
`random_state=42` seed, sklearn's result is a deterministic function of its
input, modelled here with first-`k` initialization and a bounded iteration
count.  Because the standard deviation is irrational, the embedding keeps the
rows centered (un-divided) and weights each column of the squared distance by
`1 / variance` (`1/0 = 0` in `ℚ`, matching the all-zero scaled column):
this reproduces the squared Euclidean geometry of the standardized vectors
exactly, so assignments and centroid means agree with Lloyd's algorithm run
on the standardized data. -/

/-- The documented fixed random seed (`random_state=42`). -/
def KMEANS_SEED : ℕ := 42

/-- Mean of column `j` over the pivot rows. -/
def colMean (rows : List (List ℚ)) (j : ℕ) : ℚ :=
  ((rows.map (fun r => r.getD j 0)).sum) / rows.length

/-- Population variance of column `j` (StandardScaler uses `ddof = 0`). -/
def colVar (rows : List (List ℚ)) (j : ℕ) : ℚ :=
  ((rows.map (fun r => (r.getD j 0 - colMean rows j) ^ 2)).sum) / rows.length

/-- Center every column of the rows at its mean. -/
def centerRows (n : ℕ) (rows : List (List ℚ)) : List (List ℚ) :=
  rows.map (fun r => (List.range n).map (fun j => r.getD j 0 - colMean rows j))

/-- Per-column distance weights `1 / variance` (`0` for a zero-variance
column, whose centered entries are all zero anyway). -/
def scaleWeights (n : ℕ) (rows : List (List ℚ)) : List ℚ :=
  (List.range n).map (fun j => 1 / colVar rows j)

/-- Weighted squared Euclidean distance. -/
def wdist (w a b : List ℚ) : ℚ :=
  (List.zipWith (· * ·) w (List.zipWith (fun x y => (x - y) ^ 2) a b)).sum

/-- Index of the first minimum (`np.argmin` tie behavior). -/
def argminAux : ℕ → ℕ → ℚ → List ℚ → ℕ
  | _, best, _, [] => best
  | i, best, bv, d :: rest =>
      if d < bv then argminAux (i + 1) i d rest
      else argminAux (i + 1) best bv rest

/-- Index of the first minimum of a list of distances (`0` for `[]`). -/
def argminIdx : List ℚ → ℕ
  | [] => 0
  | d :: rest => argminAux 1 0 d rest

/-- Assign every row to its nearest centroid. -/
def assignLabels (w : List ℚ) (cents rows : List (List ℚ)) : List ℕ :=
  rows.map (fun r => argminIdx (cents.map (fun c => wdist w c r)))

/-- Mean vector of a cluster (over `n` coordinates). -/
def meanVec (n : ℕ) (vs : List (List ℚ)) : List ℚ :=
  (List.range n).map (fun j => ((vs.map (fun v => v.getD j 0)).sum) / vs.length)

/-- Relocate each centroid to the mean of its assigned rows (an empty cluster
keeps its previous centroid). -/
def updateCents (n k : ℕ) (rows : List (List ℚ)) (labels : List ℕ)
    (cents : List (List ℚ)) : List (List ℚ) :=
  (List.range k).map (fun i =>
    let cluster := ((rows.zip labels).filter (fun p => p.2 = i)).map Prod.fst
    if cluster.isEmpty then cents.getD i [] else meanVec n cluster)

/-- Lloyd iteration: assign, relocate, repeat. -/
def lloydIter (n k : ℕ) (w : List ℚ) (rows : List (List ℚ)) :
    ℕ → List (List ℚ) → List (List ℚ)
  | 0, cents => cents
  | m + 1, cents =>
      lloydIter n k w rows m
        (updateCents n k rows (assignLabels w cents rows) cents)

/-- Modelled from the spec: `KMeans(n_clusters=k, random_state=seed,
n_init=10).fit_predict` on the standardized rows — deterministic Lloyd
relocation from a seed-determined initialization (modelled as the first `k`
rows), returning one label per row. -/
def kmeansFitPredict (_seed k n : ℕ) (w : List ℚ)
    (rows : List (List ℚ)) : List ℕ :=
  assignLabels w (lloydIter n k w rows 10 (rows.take k)) rows

/-- The failure modes of `cluster_countries`: the explicit `None` return for
insufficient data, and the `ValueError` scikit-learn raises from
`KMeans(n_clusters=0)` (its `n_clusters` parameter must be `≥ 1`). -/
inductive ClusterErr where
  | insufficientData
  | invalidParam
  deriving DecidableEq, Repr

/-- `cluster_countries(inflation_data, n_clusters)`: build the shared pivot
matrix (coordinate-restricted), return the `None` signal when it has fewer
rows than `n_clusters`, otherwise standardize and k-means the rows and map
each country to its integer cluster id.  `n_clusters = 0` escapes the
fewer-rows guard and makes scikit-learn raise, modelled as `invalidParam`. -/
def cluster_countries (coords : Coords) (df : List InflationRecord)
    (n_clusters : ℕ) : Except ClusterErr (List (String × ℕ)) :=
  if (buildPivot coords df).length < n_clusters then
    .error .insufficientData
  else if n_clusters = 0 then .error .invalidParam
  else
    .ok (List.zip ((buildPivot coords df).map Prod.fst)
      (kmeansFitPredict KMEANS_SEED n_clusters (pivotYears df).length
        (scaleWeights (pivotYears df).length
          ((buildPivot coords df).map Prod.snd))
        (centerRows (pivotYears df).length
          ((buildPivot coords df).map Prod.snd))))

theorem argminAux_lt :
    ∀ (rest : List ℚ) (i best : ℕ) (bv : ℚ), best < i →
      argminAux i best bv rest < i + rest.length := by
  intro rest
  induction rest with
  | nil => intro i best bv h; simpa [argminAux] using h
  | cons d ds ih =>
      intro i best bv h
      unfold argminAux
      simp only [List.length_cons]
      by_cases hd : d < bv
      · rw [if_pos hd]
        have := ih (i + 1) i d (Nat.lt_succ_self i)
        omega
      · rw [if_neg hd]
        have := ih (i + 1) best bv (Nat.lt_succ_of_lt h)
        omega

theorem argminIdx_lt (ds : List ℚ) (h : ds ≠ []) :
    argminIdx ds < ds.length := by
  cases ds with
  | nil => exact absurd rfl h
  | cons d rest =>
      unfold argminIdx
      have := argminAux_lt rest 1 0 d Nat.zero_lt_one
      simpa [Nat.add_comm] using this

theorem lloydIter_length (n k : ℕ) (w : List ℚ) (rows : List (List ℚ)) :
    ∀ (m : ℕ) (cents : List (List ℚ)), cents.length = k →
      (lloydIter n k w rows m cents).length = k := by
  intro m
  induction m with
  | zero => intro cents h; simpa [lloydIter] using h
  | succ m ih =>
      intro cents h
      unfold lloydIter
      exact ih _ (by simp [updateCents])

theorem kmeansFitPredict_labels_lt (seed k n : ℕ) (w : List ℚ)
    (rows : List (List ℚ)) (hk : 1 ≤ k) (hrows : k ≤ rows.length) :
    ∀ lab ∈ kmeansFitPredict seed k n w rows, lab < k := by
  intro lab hlab
  unfold kmeansFitPredict assignLabels at hlab
  rw [List.mem_map] at hlab
  obtain ⟨r, _, rfl⟩ := hlab
  have hcents : (lloydIter n k w rows 10 (rows.take k)).length = k :=
    lloydIter_length n k w rows _ _ (by
      rw [List.length_take]
      omega)
  have hne : (lloydIter n k w rows 10
      (rows.take k)).map (fun c => wdist w c r) ≠ [] := by
    intro hcon
    have hlen := congrArg List.length hcon
    rw [List.length_map, hcents] at hlen
    simp at hlen
    omega
  have hidx := argminIdx_lt _ hne
  rw [List.length_map, hcents] at hidx
  exact hidx

theorem kmeansFitPredict_length (seed k n : ℕ) (w : List ℚ)
    (rows : List (List ℚ)) :
    (kmeansFitPredict seed k n w rows).length = rows.length := by
  unfold kmeansFitPredict assignLabels
  simp

/-- C6 (amended): for every table and every `k ≥ 1`, `cluster` returns the
insufficient-data signal exactly when the trajectory matrix has fewer than
`k` eligible countries, and otherwise returns an assignment of exactly one
integer cluster id in `[0, k)` to every eligible country (never partial
output).  At `k = 0` the fewer-than-`k` guard cannot fire and scikit-learn
raises instead, so the claim's unrestricted `k` fails. -/
theorem cluster_spec :
    ∀ (coords : Coords) (df : List InflationRecord) (k : ℕ), 1 ≤ k →
      (cluster_countries coords df k = .error .insufficientData ↔
        (buildPivot coords df).length < k) ∧
      (k ≤ (buildPivot coords df).length →
        ∃ m, cluster_countries coords df k = .ok m ∧
          m.map Prod.fst = (buildPivot coords df).map Prod.fst ∧
          ∀ p ∈ m, p.2 < k) := by
  intro coords df k hk
  constructor
  · constructor
    · intro h
      by_cases hlt : (buildPivot coords df).length < k
      · exact hlt
      · exfalso
        unfold cluster_countries at h
        rw [if_neg hlt, if_neg (by omega)] at h
        cases h
    · intro hlt
      unfold cluster_countries
      rw [if_pos hlt]
  · intro hge
    unfold cluster_countries
    rw [if_neg (by omega), if_neg (by omega)]
    refine ⟨_, rfl, ?_, ?_⟩
    · apply List.map_fst_zip
      rw [kmeansFitPredict_length]
      simp [centerRows]
    · intro p hp
      obtain ⟨a, b⟩ := p
      have hb := (List.of_mem_zip hp).2
      refine kmeansFitPredict_labels_lt KMEANS_SEED k
        (pivotYears df).length _ _ hk ?_ b hb
      simp only [centerRows, List.length_map]
      simpa using hge

/-- Witness for `cluster_spec`: the insufficiency biconditional at a concrete
one-row matrix with `k = 2`. -/
theorem cluster_spec_witness :
    cluster_countries COUNTRY_COORDS pivotDemoTable 2 =
        .error .insufficientData ↔
      (buildPivot COUNTRY_COORDS pivotDemoTable).length < 2 :=
  (cluster_spec COUNTRY_COORDS pivotDemoTable 2 (by omega)).1

/-- Counterexample to C6 as stated: at `k = 0` (allowed by the claim's "every
k") with one eligible country, the matrix does not have fewer than `0` rows,
yet `cluster` neither signals the insufficient-data result nor returns any
assignment — `KMeans(n_clusters=0)` raises in scikit-learn (`n_clusters` must
be `≥ 1`), modelled as the `invalidParam` error. -/
theorem cluster_zero_clusters_violation :
    cluster_countries COUNTRY_COORDS [⟨"Germany", 2020, 5⟩] 0 =
      .error .invalidParam ∧
    ¬ ((buildPivot COUNTRY_COORDS [⟨"Germany", 2020, 5⟩]).length < 0) ∧
    ¬ ∃ m : List (String × ℕ),
        cluster_countries COUNTRY_COORDS [⟨"Germany", 2020, 5⟩] 0 =
          .ok m := by
  have heval : cluster_countries COUNTRY_COORDS [⟨"Germany", 2020, 5⟩] 0 =
      .error .invalidParam := by
    unfold cluster_countries
    rw [if_neg (Nat.not_lt_zero _), if_pos rfl]
  refine ⟨heval, Nat.not_lt_zero _, ?_⟩
  rintro ⟨m, hm⟩
  rw [heval] at hm
  cases hm

/-- C9: clustering is deterministic — with the fixed documented seed
(`random_state = 42`, `KMEANS_SEED`), two invocations of `cluster` on the
same table and the same `k` return the same assignment. -/
theorem cluster_deterministic :
    ∀ (coords : Coords) (df : List InflationRecord) (k : ℕ)
      (r1 r2 : Except ClusterErr (List (String × ℕ))),
      r1 = cluster_countries coords df k →
      r2 = cluster_countries coords df k →
      r1 = r2 := by
  intro coords df k r1 r2 h1 h2
  rw [h1, h2]

/-- Witness for `cluster_deterministic`: two runs at a concrete input. -/
theorem cluster_deterministic_witness :
    cluster_countries COUNTRY_COORDS pivotDemoTable 1 =
      cluster_countries COUNTRY_COORDS pivotDemoTable 1 :=
  cluster_deterministic COUNTRY_COORDS pivotDemoTable 1 _ _ rfl rfl

/-! ## Insight Generator: `generate_insights`
(src/analytics.py lines 53-136)

The source appends markdown strings; the embedding abstracts each statement
to a constructor carrying the statement's computed payload (the formatted
numbers), leaving only the string templating behind. -/

/-- One generated insight statement, by kind and payload. -/
inductive Insight where
  | regionalAnalysis (year : ℤ) (avg : ℚ)
  | geographicPattern (region : String) (avg : ℚ) (year : ℤ)
  | trendAlert (country : String) (word : String)
  | highInflationAlert (count : ℕ) (year : ℤ)
  | deflationAlert (count : ℕ) (year : ℤ)
  deriving DecidableEq, Repr

/-- `Series.mean()`: sum divided by length. -/
def qmean (l : List ℚ) : ℚ := l.sum / l.length

/-- Append a value to a key's bucket, keeping first-appearance key order
(Python dict insertion order). -/
def addToGroup (key : String) (v : ℚ) :
    List (String × List ℚ) → List (String × List ℚ)
  | [] => [(key, [v])]
  | (k2, vs) :: rest =>
      if k2 = key then (k2, vs ++ [v]) :: rest
      else (k2, vs) :: addToGroup key v rest

/-- The `region_inflations` dict: group the map rows' inflation values by the
region of their country, skipping countries without a region. -/
def regionGroups (regions : Regions) (m : List MapRow) :
    List (String × List ℚ) :=
  m.foldl (fun acc row =>
    match regions.lookup row.country with
    | some reg => addToGroup reg row.inflation acc
    | none => acc) []

/-- `max(region_avgs, key=region_avgs.get)`: the first key attaining the
maximal value, in iteration order. -/
def argmaxFirst : List (String × ℚ) → Option (String × ℚ)
  | [] => none
  | x :: rest => some (rest.foldl (fun b y => if y.2 > b.2 then y else b) x)

/-- Check 1: the regional-average statement, emitted when `selected_regions`
is non-empty. -/
def regionalCheck (rs : List String) (year : ℤ) (m : List MapRow) :
    List Insight :=
  if rs ≠ [] then
    [.regionalAnalysis year (qmean (m.map (fun r => r.inflation)))]
  else []

/-- Check 2: the highest-mean-region statement, emitted when the map data is
non-empty and at least one row's country has a known region. -/
def geographicCheck (regions : Regions) (year : ℤ) (m : List MapRow) :
    List Insight :=
  if m.length > 0 then
    match argmaxFirst ((regionGroups regions m).map
        (fun g => (g.1, qmean g.2))) with
    | some best => [.geographicPattern best.1 best.2 year]
    | none => []
  else []

/-- The trend classification of check 3. -/
def trendWord (recent earlier : ℚ) : String :=
  if recent > earlier + 1 then "increased"
  else if recent < earlier - 1 then "decreased"
  else "remained relatively stable"

/-- Check 3: the country-trend statement, emitted when a country is selected
and has at least two historical rows; compares the mean of the last up-to-3
observations against the mean of the first up-to-3 (by year order). -/
def trendCheck (df : List InflationRecord) (sc : Option String) :
    List Insight :=
  match sc with
  | none => []
  | some c =>
      if 2 ≤ ((df.filter (fun r => r.country = c)).insertionSort
          byYearLE).length then
        [.trendAlert c (trendWord
          (if 3 ≤ ((df.filter (fun r => r.country = c)).insertionSort
              byYearLE).length then
            qmean ((((df.filter (fun r => r.country = c)).insertionSort
              byYearLE).map (fun r => r.inflation)).drop
                ((((df.filter (fun r => r.country = c)).insertionSort
                  byYearLE).map (fun r => r.inflation)).length - 3))
          else
            qmean ((((df.filter (fun r => r.country = c)).insertionSort
              byYearLE).map (fun r => r.inflation)).drop
                ((((df.filter (fun r => r.country = c)).insertionSort
                  byYearLE).map (fun r => r.inflation)).length - 2)))
          (if 3 ≤ ((df.filter (fun r => r.country = c)).insertionSort
              byYearLE).length then
            qmean ((((df.filter (fun r => r.country = c)).insertionSort
              byYearLE).map (fun r => r.inflation)).take 3)
          else
            qmean ((((df.filter (fun r => r.country = c)).insertionSort
              byYearLE).map (fun r => r.inflation)).take 2)))]
      else []

/-- Check 4: the high-inflation alert, emitted when some map row exceeds 10%. -/
def highInflationCheck (year : ℤ) (m : List MapRow) : List Insight :=
  if 0 < (m.filter (fun r => r.inflation > 10)).length then
    [.highInflationAlert (m.filter (fun r => r.inflation > 10)).length year]
  else []

/-- Check 5: the deflation alert, emitted when some map row is below 0%. -/
def deflationCheck (year : ℤ) (m : List MapRow) : List Insight :=
  if 0 < (m.filter (fun r => r.inflation < 0)).length then
    [.deflationAlert (m.filter (fun r => r.inflation < 0)).length year]
  else []

/-- `generate_insights(map_data, inflation_df, selected_year,
selected_regions, selected_country)`: starting from an empty list, run the
five checks in their fixed source order, each appending its statement only
when its own precondition holds. -/
def generate_insights (regions : Regions) (map_data : List MapRow)
    (inflation_df : List InflationRecord) (selected_year : ℤ)
    (selected_regions : List String) (selected_country : Option String) :
    List Insight :=
  (((regionalCheck selected_regions selected_year map_data ++
      geographicCheck regions selected_year map_data) ++
      trendCheck inflation_df selected_country) ++
      highInflationCheck selected_year map_data) ++
      deflationCheck selected_year map_data

/-- C8: the insight statements appear in the fixed order of the five checks;
each check emits nothing when its own precondition fails, and each check's
output is a function only of its own inputs, so one failing precondition
never suppresses another check's statement. -/
theorem generate_insights_order_and_independence :
    ∀ (regions : Regions) (m : List MapRow) (df : List InflationRecord)
      (y : ℤ) (rs : List String) (sc : Option String),
      generate_insights regions m df y rs sc =
        regionalCheck rs y m ++ geographicCheck regions y m ++
          trendCheck df sc ++ highInflationCheck y m ++ deflationCheck y m ∧
      (rs = [] → regionalCheck rs y m = []) ∧
      (m = [] → geographicCheck regions y m = []) ∧
      (sc = none → trendCheck df sc = []) ∧
      ((m.filter (fun r => r.inflation > 10)).length = 0 →
        highInflationCheck y m = []) ∧
      ((m.filter (fun r => r.inflation < 0)).length = 0 →
        deflationCheck y m = []) := by
  intro regions m df y rs sc
  refine ⟨by simp [generate_insights], ?_, ?_, ?_, ?_, ?_⟩
  · intro h
    simp [regionalCheck, h]
  · intro h
    simp [geographicCheck, h]
  · intro h
    simp [trendCheck, h]
  · intro h
    simp [highInflationCheck, h]
  · intro h
    simp [deflationCheck, h]

/-- Witness for `generate_insights_order_and_independence`: at empty inputs
each guarded check contributes nothing. -/
theorem generate_insights_order_and_independence_witness :
    regionalCheck [] 2020 [] = [] ∧ trendCheck [] none = [] :=
  ⟨(generate_insights_order_and_independence COUNTRY_REGIONS [] [] 2020 []
      none).2.1 rfl,
   (generate_insights_order_and_independence COUNTRY_REGIONS [] [] 2020 []
      none).2.2.2.1 rfl⟩

end InflationTracker
